import Mathlib

/-!
Shallow embedding of the Glassine Paper CSS slider script
(`onSliderInput`, `bodyOnLoad`).

Modelling conventions:
* A JavaScript number that may be `NaN` is modelled as `Option ℚ`
  (`none` = `NaN`, i.e. the string did not parse as a number);
  the finite numeric values are modelled as rationals.
* `Number(x) || 0` is `jsOrZero`: `NaN` and `0` both collapse to `0`.
* The JavaScript `<` comparison on possibly-`NaN` operands is `jsLt`
  (`false` whenever either side is `NaN`).
* A DOM element reference that may be `null`/`undefined` is an `Option`.
  Dereferencing a possibly-null reference is `jsDeref`, which throws
  (models the `TypeError` raised by property access on `undefined`).
* `classList.add`/`remove` of the class `lower` on an option element is
  modelled as setting the boolean field `lower` (class-set semantics:
  adding an existing class is a no-op).
* The `--slider-progress` custom property of a `.slider` element is the
  `progress : Option String` field (`none` = property never set).
* Template literal formatting of a number is `toString` on ℚ.
-/

/-- A JavaScript numeric value: `none` models `NaN`. -/
abbrev JsNum := Option ℚ

/-- Coercion `Number(x) || 0`: `NaN` (and `0` itself, and `-0`) become `0`,
any other number is kept. -/
def jsOrZero : JsNum → ℚ
  | none => 0
  | some q => if q = 0 then 0 else q

/-- JavaScript `<` on possibly-`NaN` numbers: any comparison involving
`NaN` is `false`. -/
def jsLt : JsNum → JsNum → Bool
  | some a, some b => decide (a < b)
  | _, _ => false

/-- Ratio `max > min ? ((value - min) / (max - min)) * 100 : 0`
(line 94 of the source). -/
def ratioVal (value min max : ℚ) : ℚ :=
  if max > min then (value - min) / (max - min) * 100 else 0

/-- The template literal `` `${ratio}%` ``. -/
def ratioStr (value min max : ℚ) : String :=
  toString (ratioVal value min max) ++ "%"

/-- An `<option>` element (native) or `.option` element (custom):
`value` is the numeric parse of its value attribute, `lower` is whether
its class list contains `lower`. -/
structure MarkerOption where
  value : JsNum
  lower : Bool
deriving Repr, DecidableEq

/-- A native `<datalist>` element: `options` is its option collection. -/
structure NativeList where
  options : List MarkerOption
deriving Repr, DecidableEq

/-- A custom `.datalist` element: `options` is the collection returned by
`getElementsByClassName('option')`. -/
structure CustomList where
  options : List MarkerOption
deriving Repr, DecidableEq

/-- The enclosing `.slider` container as seen from `onSliderInput`:
its `<datalist>` descendants in document order, its `.datalist`
descendants in document order, and its `--slider-progress` property. -/
structure SContainer where
  datalists : List NativeList
  customLists : List CustomList
  progress : Option String
deriving Repr, DecidableEq

/-- The event target (`e.target`) together with everything reachable from
it: its `value`/`min`/`max` fields, its `list` property (the associated
`<datalist>`, or `null`), and `closest('.slider')`. -/
structure Target where
  value : JsNum
  min : JsNum
  max : JsNum
  list : Option NativeList
  container : Option SContainer
deriving Repr, DecidableEq

/-- Body of the marker loop: set the `lower` class from the comparison
`Number(option.value) < Number(value)`. -/
def updateMarkerOption (v : ℚ) (o : MarkerOption) : MarkerOption :=
  { o with lower := jsLt o.value (some v) }

/-- The `for (const option of sliderList.options)` loop
(lines 105-111 of the source). -/
def updateNativeList (v : ℚ) (dl : NativeList) : NativeList :=
  ⟨dl.options.map (updateMarkerOption v)⟩

/-- The `for (const option of sliderDataList.getElementsByClassName('option'))`
loop (lines 117-123 of the source). -/
def updateCustomList (v : ℚ) (cl : CustomList) : CustomList :=
  ⟨cl.options.map (updateMarkerOption v)⟩

/-- Handler `onSliderInput` (lines 90-126 of the source), as a pure function from
the reachable world of the event target to its updated state.  All
mutations performed by the function live inside `e.target.list` or inside
the container, so the updated `Target` captures the whole effect. -/
def onSliderInput (t : Target) : Target :=
  let value := jsOrZero t.value
  let min := jsOrZero t.min
  let max := jsOrZero t.max
  let ratio := ratioStr value min max
  -- if (baseElement) baseElement.style.setProperty('--slider-progress', ratio)
  let cont1 := t.container.map fun b => { b with progress := some ratio }
  -- const sliderList = e.target.list ||
  --   (baseElement ? baseElement.getElementsByTagName('datalist').item(0) : null)
  match t.list with
  | some dl =>
    -- sliderList is e.target.list: update its options
    { t with list := some (updateNativeList value dl), container := cont1 }
  | none =>
    match cont1 with
    | none =>
      -- no baseElement and no list: both branches skipped
      { t with container := none }
    | some b =>
      match b.datalists with
      | dl :: rest =>
        -- sliderList is baseElement.getElementsByTagName('datalist').item(0)
        { t with container := some { b with datalists := updateNativeList value dl :: rest } }
      | [] =>
        -- else-if branch: baseElement.getElementsByClassName('datalist').item(0)
        match b.customLists with
        | cl :: rest =>
          { t with container := some { b with customLists := updateCustomList value cl :: rest } }
        | [] => { t with container := some b }

/-- A `TypeError`: in JavaScript, property access on `null`/`undefined`
throws.  `jsDeref` models a property access on a possibly-null
reference. -/
def jsDeref {α : Type} : Option α → Except String α
  | some a => .ok a
  | none => .error "TypeError"

/-- Handler `onSliderInput` again, in an exception monad, with a `jsDeref` at
every property access the source performs on a possibly-null reference:
`baseElement.style` (guarded by `if (baseElement)`), the
`getElementsByTagName` call (guarded by the ternary), `sliderList.options`
(guarded by `if (sliderList)`), and the `getElementsByClassName` calls
(guarded by `else if (baseElement)` and `if (sliderDataList)`). -/
def onSliderInputChecked (t : Target) : Except String Target := do
  let value := jsOrZero t.value
  let min := jsOrZero t.min
  let max := jsOrZero t.max
  let ratio := ratioStr value min max
  let cont1 ←
    if t.container.isSome then do
      let b ← jsDeref t.container
      pure (some { b with progress := some ratio })
    else
      pure t.container
  match t.list with
  | some _ => do
    let dl ← jsDeref t.list
    pure { t with list := some (updateNativeList value dl), container := cont1 }
  | none =>
    if cont1.isSome then do
      let b ← jsDeref cont1
      match b.datalists.head? with
      | some dl =>
        let b1 := { b with datalists := updateNativeList value dl :: b.datalists.tail }
        pure { t with container := some b1 }
      | none =>
        match b.customLists.head? with
        | some cl =>
          let b1 := { b with customLists := updateCustomList value cl :: b.customLists.tail }
          pure { t with container := some b1 }
        | none => pure { t with container := some b }
    else
      pure { t with container := cont1 }

/-- The closed variant suggested by the spec (§9) for the
marker-collection resolution policy. -/
inductive MarkerSource where
  | nativeTarget (dl : NativeList)
  | nativeContainer (dl : NativeList)
  | customContainer (cl : CustomList)
  | noneFound
deriving Repr, DecidableEq

/-- Resolution order exactly as the spec states it (§4.1), first match
wins: (1) the list associated with the control, (2) the first native
`<datalist>` inside the enclosing container, (3) the first custom
`.datalist` collection inside the same container, (4) none. -/
def resolveMarkerSource (t : Target) : MarkerSource :=
  match t.list with
  | some dl => .nativeTarget dl
  | none =>
    match t.container with
    | none => .noneFound
    | some b =>
      match b.datalists.head? with
      | some dl => .nativeContainer dl
      | none =>
        match b.customLists.head? with
        | some cl => .customContainer cl
        | none => .noneFound

/-- Writing the progress sink: when the enclosing container exists, its
`--slider-progress` property is set to the ratio string. -/
def writeProgress (t : Target) : Target :=
  let r := ratioStr (jsOrZero t.value) (jsOrZero t.min) (jsOrZero t.max)
  { t with container := t.container.map fun b => { b with progress := some r } }

/-- Spec-side description of the update: write the progress sink, then
update the flags of the one resolved marker collection in place;
when no collection was found, only the sink is written. -/
def applyResolved (t : Target) : MarkerSource → Target
  | .nativeTarget dl =>
    let t1 := writeProgress t
    { t1 with list := some (updateNativeList (jsOrZero t.value) dl) }
  | .nativeContainer dl =>
    let t1 := writeProgress t
    let upd := fun (b : SContainer) =>
      { b with datalists := updateNativeList (jsOrZero t.value) dl :: b.datalists.tail }
    { t1 with container := t1.container.map upd }
  | .customContainer cl =>
    let t1 := writeProgress t
    let upd := fun (b : SContainer) =>
      { b with customLists := updateCustomList (jsOrZero t.value) cl :: b.customLists.tail }
    { t1 with container := t1.container.map upd }
  | .noneFound => writeProgress t

/-- An `<input>` element inside a `.slider` container. -/
structure InputElem where
  value : JsNum
  min : JsNum
  max : JsNum
  list : Option NativeList
deriving Repr, DecidableEq

/-- A `.slider` element as seen from `bodyOnLoad`: its first `<input>`
descendant (or `none` when it has no input), its marker collections, its
progress property, and the number of `input` listeners registered on the
input. -/
structure SliderElem where
  input : Option InputElem
  datalists : List NativeList
  customLists : List CustomList
  progress : Option String
  listeners : Nat
deriving Repr, DecidableEq

/-- The event target of `onSliderInput({ target: input })` for an input
inside a `.slider` element: `closest('.slider')` of that input is the
slider element itself. -/
def mkTarget (s : SliderElem) (i : InputElem) : Target :=
  { value := i.value, min := i.min, max := i.max, list := i.list,
    container := some ⟨s.datalists, s.customLists, s.progress⟩ }

/-- Write the updated target world back into the document: the input's
`list` and the container's collections/property are the only locations
`onSliderInput` mutates. -/
def writeBack (s : SliderElem) (i : InputElem) (t : Target) : SliderElem :=
  let i1 : InputElem := { i with list := t.list }
  match t.container with
  | some b =>
    { s with
      input := some i1
      datalists := b.datalists
      customLists := b.customLists
      progress := b.progress }
  | none => { s with input := some i1 }

/-- The effect on a `.slider` element of one `onSliderInput` call
triggered with its input as target (e.g. by the registered `input`
listener); a slider with no input has no listener, so nothing happens. -/
def syncSlider (s : SliderElem) : SliderElem :=
  match s.input with
  | some i => writeBack s i (onSliderInput (mkTarget s i))
  | none => s

/-- One iteration of the `bodyOnLoad` loop (lines 156-158 of the source):
`slider.getElementsByTagName('input')[0]` is `undefined` when the slider
contains no `<input>`, and then `input.addEventListener` throws a
`TypeError`; otherwise the listener is registered and
`onSliderInput({ target: input })` runs immediately. -/
def sliderOnLoad (s : SliderElem) : Except String SliderElem := do
  let i ← jsDeref s.input
  let s1 := { s with listeners := s.listeners + 1 }
  pure (writeBack s1 i (onSliderInput (mkTarget s i)))

/-- Loader `bodyOnLoad` (lines 153-160 of the source): iterate over
`document.getElementsByClassName('slider')` in document order; an
exception thrown for one slider aborts the loop and propagates. -/
def bodyOnLoad : List SliderElem → Except String (List SliderElem)
  | [] => .ok []
  | s :: rest => do
    let s' ← sliderOnLoad s
    let rest' ← bodyOnLoad rest
    pure (s' :: rest')

/-- Dispatching an `input` event on the input of the `k`-th slider runs
the registered handler for that slider only (event targets determine the
enclosing container via `closest`). -/
def dispatchInput (doc : List SliderElem) (k : Nat) : List SliderElem :=
  match doc.get? k with
  | some s => doc.set k (syncSlider s)
  | none => doc

/-- The ratio formula exactly as the spec's words state it:
`ratio = max > min ? (current - min) / (max - min) * 100 : 0`. -/
def specRatio (current min max : ℚ) : ℚ :=
  if max > min then (current - min) / (max - min) * 100 else 0

/-- Spec-side coercion: a non-numeric or missing value is treated as 0,
a numeric value is kept. -/
def specCoerce (x : JsNum) : ℚ := x.getD 0

/-- A marker position is numerically below the current value: it parses
to a number, and that number is strictly less than the current value. -/
def posBelow (x : JsNum) (c : ℚ) : Prop := ∃ p, x = some p ∧ p < c

/-- Predicate: `after` is `before` with every marker's `lower` flag reconciled
against the current value `v`: same markers in the same order, each
flagged below exactly when its position is numerically below `v`
(whatever its previous flag was), and a marker whose position equals `v`
not flagged. -/
def flagsSet (v : ℚ) (before after : List MarkerOption) : Prop :=
  after.length = before.length ∧
  ∀ i (hb : i < before.length) (ha : i < after.length),
    after[i].value = before[i].value ∧
    (after[i].lower = true ↔ posBelow before[i].value v) ∧
    (before[i].value = some v → after[i].lower = false)

/-- The successful effect of one `bodyOnLoad` iteration on a slider that
has an input: one more listener registered on the input, and the slider
synchronized once. -/
def sliderLoadOk (s : SliderElem) : SliderElem :=
  { syncSlider s with listeners := s.listeners + 1 }

/-- Concrete fixture: a range input `value=5 min=0 max=10` with no
associated datalist. -/
def exInputA : InputElem := ⟨some 5, some 0, some 10, none⟩

/-- Concrete fixture: a custom marker collection with one marker at 3. -/
def exCustomA : CustomList := ⟨[⟨some 3, false⟩]⟩

/-- Concrete fixture: a slider instance using the custom collection
fallback. -/
def exSliderA : SliderElem := ⟨some exInputA, [], [exCustomA], none, 1⟩

/-- Concrete fixture: a second, independent slider instance. -/
def exInputB : InputElem := ⟨some 7, some 0, some 10, none⟩

/-- Concrete fixture: the second instance's custom marker collection,
with one marker at 9 spuriously flagged below. -/
def exCustomB : CustomList := ⟨[⟨some 9, true⟩]⟩

/-- Concrete fixture: the second slider instance. -/
def exSliderB : SliderElem := ⟨some exInputB, [], [exCustomB], none, 1⟩

example :
    onSliderInput
      { value := some 25, min := some 0, max := some 100,
        list := some ⟨[⟨some 0, false⟩, ⟨some 25, true⟩, ⟨some 50, true⟩]⟩,
        container := some ⟨[], [], none⟩ } =
      { value := some 25, min := some 0, max := some 100,
        list := some ⟨[⟨some 0, true⟩, ⟨some 25, false⟩, ⟨some 50, false⟩]⟩,
        container := some ⟨[], [], some "25%"⟩ } := by
  have h : ratioVal 25 0 100 = 25 := by norm_num [ratioVal]
  have hs : toString (25 : ℚ) ++ "%" = "25%" := rfl
  norm_num [onSliderInput, updateNativeList, updateMarkerOption, ratioStr,
    jsOrZero, jsLt, h, hs]

lemma jsOrZero_some (q : ℚ) : jsOrZero (some q) = q := by
  by_cases h : q = 0 <;> simp [jsOrZero, h]

lemma jsOrZero_eq_specCoerce (x : JsNum) : jsOrZero x = specCoerce x := by
  cases x with
  | none => rfl
  | some q => rw [jsOrZero_some]; rfl

lemma ratioVal_eq_specRatio (v m M : ℚ) : ratioVal v m M = specRatio v m M := rfl

lemma sync_eq_resolved (t : Target) :
    onSliderInput t = applyResolved t (resolveMarkerSource t) := by
  obtain ⟨v, m, M, l, c⟩ := t
  cases l with
  | some dl => rfl
  | none =>
    cases c with
    | none => rfl
    | some b =>
      obtain ⟨dls, cls, pr⟩ := b
      cases dls with
      | cons dl rest => rfl
      | nil =>
        cases cls with
        | cons cl rest => rfl
        | nil => rfl

lemma checked_eq_ok (t : Target) :
    onSliderInputChecked t = Except.ok (onSliderInput t) := by
  obtain ⟨v, m, M, l, c⟩ := t
  cases l with
  | some dl => cases c <;> rfl
  | none =>
    cases c with
    | none => rfl
    | some b =>
      obtain ⟨dls, cls, pr⟩ := b
      cases dls with
      | cons dl rest => rfl
      | nil =>
        cases cls with
        | cons cl rest => rfl
        | nil => rfl

lemma updateMarkerOption_idem (v : ℚ) (o : MarkerOption) :
    updateMarkerOption v (updateMarkerOption v o) = updateMarkerOption v o := rfl

lemma updateNativeList_idem (v : ℚ) (dl : NativeList) :
    updateNativeList v (updateNativeList v dl) = updateNativeList v dl := by
  cases dl with
  | mk opts =>
    simp [updateNativeList, List.map_map, Function.comp_def, updateMarkerOption_idem]

lemma updateCustomList_idem (v : ℚ) (cl : CustomList) :
    updateCustomList v (updateCustomList v cl) = updateCustomList v cl := by
  cases cl with
  | mk opts =>
    simp [updateCustomList, List.map_map, Function.comp_def, updateMarkerOption_idem]

lemma onSliderInput_idem (t : Target) :
    onSliderInput (onSliderInput t) = onSliderInput t := by
  obtain ⟨v, m, M, l, c⟩ := t
  cases l with
  | some dl =>
    cases c with
    | none => simp [onSliderInput, updateNativeList_idem]
    | some b => simp [onSliderInput, updateNativeList_idem]
  | none =>
    cases c with
    | none => simp [onSliderInput]
    | some b =>
      obtain ⟨dls, cls, pr⟩ := b
      cases dls with
      | cons dl rest => simp [onSliderInput, updateNativeList_idem]
      | nil =>
        cases cls with
        | cons cl rest => simp [onSliderInput, updateCustomList_idem]
        | nil => simp [onSliderInput]

lemma syncSlider_idem (s : SliderElem) :
    syncSlider (syncSlider s) = syncSlider s := by
  obtain ⟨inp, dls, cls, pr, n⟩ := s
  cases inp with
  | none => rfl
  | some i =>
    obtain ⟨iv, im, iM, il⟩ := i
    cases il with
    | some dl =>
      simp [syncSlider, writeBack, mkTarget, onSliderInput, updateNativeList_idem]
    | none =>
      cases dls with
      | cons dl rest =>
        simp [syncSlider, writeBack, mkTarget, onSliderInput, updateNativeList_idem]
      | nil =>
        cases cls with
        | cons cl rest =>
          simp [syncSlider, writeBack, mkTarget, onSliderInput, updateCustomList_idem]
        | nil => simp [syncSlider, writeBack, mkTarget, onSliderInput]

lemma jsLt_some_iff (x : JsNum) (v : ℚ) :
    jsLt x (some v) = true ↔ posBelow x v := by
  cases x with
  | none => simp [jsLt, posBelow]
  | some p => simp [jsLt, posBelow]

lemma flagsSet_map (v : ℚ) (opts : List MarkerOption) :
    flagsSet v opts (opts.map (updateMarkerOption v)) := by
  refine ⟨by simp, ?_⟩
  intro i hb ha
  refine ⟨by simp [updateMarkerOption], ?_, ?_⟩
  · simp only [List.getElem_map, updateMarkerOption]
    exact jsLt_some_iff _ v
  · intro hv
    simp [updateMarkerOption, hv, jsLt]

lemma branch_native_target (t : Target) (dl : NativeList) (h : t.list = some dl) :
    (onSliderInput t).list = some (updateNativeList (jsOrZero t.value) dl) := by
  obtain ⟨v, m, M, l, c⟩ := t
  cases c <;> simp_all [onSliderInput]

lemma branch_container_native (t : Target) (b : SContainer) (dl : NativeList)
    (rest : List NativeList)
    (hl : t.list = none) (hc : t.container = some b) (hd : b.datalists = dl :: rest) :
    (onSliderInput t).container =
      some ⟨updateNativeList (jsOrZero t.value) dl :: rest, b.customLists,
        some (ratioStr (jsOrZero t.value) (jsOrZero t.min) (jsOrZero t.max))⟩ := by
  obtain ⟨v, m, M, l, c⟩ := t
  obtain ⟨dls, cls, pr⟩ := b
  simp_all [onSliderInput]

lemma branch_container_custom (t : Target) (b : SContainer) (cl : CustomList)
    (rest : List CustomList)
    (hl : t.list = none) (hc : t.container = some b) (hd : b.datalists = [])
    (hcl : b.customLists = cl :: rest) :
    (onSliderInput t).container =
      some ⟨[], updateCustomList (jsOrZero t.value) cl :: rest,
        some (ratioStr (jsOrZero t.value) (jsOrZero t.min) (jsOrZero t.max))⟩ := by
  obtain ⟨v, m, M, l, c⟩ := t
  obtain ⟨dls, cls, pr⟩ := b
  simp_all [onSliderInput]

lemma onSliderInput_progress (t : Target) (b : SContainer) (h : t.container = some b) :
    ∃ b', (onSliderInput t).container = some b' ∧
      b'.progress =
        some (ratioStr (jsOrZero t.value) (jsOrZero t.min) (jsOrZero t.max)) := by
  obtain ⟨v, m, M, l, c⟩ := t
  obtain ⟨dls, cls, pr⟩ := b
  cases l with
  | some dl => simp_all [onSliderInput]
  | none =>
    cases dls with
    | cons dl rest => simp_all [onSliderInput]
    | nil =>
      cases cls with
      | cons cl rest => simp_all [onSliderInput]
      | nil => simp_all [onSliderInput]

lemma writeBack_listeners (s : SliderElem) (i : InputElem) (t : Target) (k : Nat) :
    writeBack { s with listeners := k } i t = { writeBack s i t with listeners := k } := by
  cases h : t.container <;> simp [writeBack, h]

lemma mkTarget_listeners (s : SliderElem) (i : InputElem) (k : Nat) :
    mkTarget { s with listeners := k } i = mkTarget s i := rfl

lemma exceptOkBind {α β : Type} (a : α) (f : α → Except String β) :
    (Except.ok a >>= f) = f a := rfl

lemma syncSlider_listeners (s : SliderElem) (k : Nat) :
    syncSlider { s with listeners := k } = { syncSlider s with listeners := k } := by
  obtain ⟨inp, dls, cls, pr, n⟩ := s
  cases inp with
  | none => rfl
  | some i =>
    simp only [syncSlider, mkTarget]
    cases hc : (onSliderInput ⟨i.value, i.min, i.max, i.list, some ⟨dls, cls, pr⟩⟩).container with
    | none => simp [writeBack, hc]
    | some b => simp [writeBack, hc]

lemma sliderOnLoad_eq_ok (s : SliderElem) (i : InputElem) (h : s.input = some i) :
    sliderOnLoad s = Except.ok (sliderLoadOk s) := by
  obtain ⟨inp, dls, cls, pr, n⟩ := s
  obtain rfl : inp = some i := h
  simp only [sliderOnLoad, jsDeref, exceptOkBind, sliderLoadOk, syncSlider]
  cases hc : (onSliderInput (mkTarget ⟨some i, dls, cls, pr, n⟩ i)).container with
  | none =>
    simp only [writeBack, hc]
    rfl
  | some b =>
    simp only [writeBack, hc]
    rfl

lemma bodyOnLoad_ok (doc : List SliderElem) (h : ∀ s ∈ doc, s.input.isSome) :
    bodyOnLoad doc = Except.ok (doc.map sliderLoadOk) := by
  induction doc with
  | nil => rfl
  | cons s rest ih =>
    have hs : s.input.isSome := h s (by simp)
    obtain ⟨i, hi⟩ := Option.isSome_iff_exists.mp hs
    have hr : ∀ x ∈ rest, x.input.isSome := fun x hx => h x (by simp [hx])
    show (do
      let s' ← sliderOnLoad s
      let rest' ← bodyOnLoad rest
      pure (s' :: rest')) = Except.ok (List.map sliderLoadOk (s :: rest))
    rw [sliderOnLoad_eq_ok s i hi, ih hr]
    rfl

lemma syncSlider_fix (s : SliderElem) :
    syncSlider (sliderLoadOk s) = sliderLoadOk s := by
  simp only [sliderLoadOk, syncSlider_listeners, syncSlider_idem]

/-- C1: for every call to `synchronize` (`onSliderInput`) on a target
whose enclosing `.slider` container exists, the fields `current`
(`value`), `min` and `max` are coerced to numbers with any non-numeric
or missing value treated as 0, and the string written to the progress
sink (the `--slider-progress` style property of the container) equals
`"<r>%"` where `r = (current - min) / (max - min) * 100` when
`max > min` and `r = 0` when `max <= min`. -/
theorem claim_C1 (t : Target) (b : SContainer) (h : t.container = some b) :
    ∃ b', (onSliderInput t).container = some b' ∧
      b'.progress = some (toString
        (specRatio (specCoerce t.value) (specCoerce t.min) (specCoerce t.max)) ++ "%") := by
  obtain ⟨b', hb', hp⟩ := onSliderInput_progress t b h
  refine ⟨b', hb', ?_⟩
  rw [hp, ratioStr, jsOrZero_eq_specCoerce, jsOrZero_eq_specCoerce,
    jsOrZero_eq_specCoerce, ratioVal_eq_specRatio]

/-- C1 witness: the spec's degenerate scenario `min=0, max=0, current=50`
writes `"0%"` to the sink. -/
theorem claim_C1_witness :
    (∃ b', (onSliderInput ⟨some 50, some 0, some 0, none,
        some ⟨[], [], none⟩⟩).container = some b' ∧
      b'.progress = some (toString (specRatio (specCoerce (some 50))
        (specCoerce (some 0)) (specCoerce (some 0))) ++ "%")) ∧
    toString (specRatio (specCoerce (some (50 : ℚ))) (specCoerce (some (0 : ℚ)))
      (specCoerce (some (0 : ℚ)))) ++ "%" = "0%" := by
  constructor
  · exact claim_C1 ⟨some 50, some 0, some 0, none, some ⟨[], [], none⟩⟩ ⟨[], [], none⟩ rfl
  · have h : specRatio (specCoerce (some (50 : ℚ))) (specCoerce (some (0 : ℚ)))
        (specCoerce (some (0 : ℚ))) = 0 := by
      norm_num [specRatio, specCoerce]
    rw [h]
    rfl

/-- C2: after every `synchronize` call that resolves a marker collection
(by any of the three resolution routes), each marker of the updated
collection carries the `lower` class if and only if its numerically
parsed position is strictly below the coerced current value; a marker
whose position equals the current value is not flagged; the result does
not depend on the markers' previous flags (no stale flag persists). -/
theorem claim_C2 (t : Target) :
    (∀ dl, t.list = some dl →
      ∃ dl', (onSliderInput t).list = some dl' ∧
        flagsSet (jsOrZero t.value) dl.options dl'.options) ∧
    (∀ b dl rest, t.list = none → t.container = some b → b.datalists = dl :: rest →
      ∃ b' dl', (onSliderInput t).container = some b' ∧ b'.datalists = dl' :: rest ∧
        flagsSet (jsOrZero t.value) dl.options dl'.options) ∧
    (∀ b cl rest, t.list = none → t.container = some b → b.datalists = [] →
        b.customLists = cl :: rest →
      ∃ b' cl', (onSliderInput t).container = some b' ∧ b'.customLists = cl' :: rest ∧
        flagsSet (jsOrZero t.value) cl.options cl'.options) := by
  refine ⟨?_, ?_, ?_⟩
  · intro dl hdl
    exact ⟨updateNativeList (jsOrZero t.value) dl, branch_native_target t dl hdl,
      flagsSet_map _ _⟩
  · intro b dl rest hl hc hd
    exact ⟨_, updateNativeList (jsOrZero t.value) dl,
      branch_container_native t b dl rest hl hc hd, rfl, flagsSet_map _ _⟩
  · intro b cl rest hl hc hd hcl
    exact ⟨_, updateCustomList (jsOrZero t.value) cl,
      branch_container_custom t b cl rest hl hc hd hcl, rfl, flagsSet_map _ _⟩

/-- C2 witness: a target with an associated datalist whose markers sit
at 0 (stale un-flagged), 25 (equal to current, stale flagged) and 50;
after the call the flags are exactly `position < 25`. -/
theorem claim_C2_witness :
    ∃ dl', (onSliderInput ⟨some 25, some 0, some 100,
        some ⟨[⟨some 0, false⟩, ⟨some 25, true⟩, ⟨some 50, true⟩]⟩, none⟩).list = some dl' ∧
      flagsSet (jsOrZero (some 25))
        [⟨some 0, false⟩, ⟨some 25, true⟩, ⟨some 50, true⟩] dl'.options := by
  obtain ⟨h1, h2, h3⟩ := claim_C2 ⟨some 25, some 0, some 100,
    some ⟨[⟨some 0, false⟩, ⟨some 25, true⟩, ⟨some 50, true⟩]⟩, none⟩
  exact h1 ⟨[⟨some 0, false⟩, ⟨some 25, true⟩, ⟨some 50, true⟩]⟩ rfl

/-- C3: `synchronize` resolves exactly one marker collection per call,
first match winning: (1) the list directly associated with the control,
(2) otherwise the first native `<datalist>` inside the enclosing
container, (3) otherwise the first custom `.datalist` collection inside
the same container; when none is found no marker flags change, and the
progress sink (which exists exactly when the container exists) is still
updated.  `applyResolved`/`resolveMarkerSource` state this policy
verbatim, and `onSliderInput` equals their composition. -/
theorem claim_C3 (t : Target) :
    onSliderInput t = applyResolved t (resolveMarkerSource t) :=
  sync_eq_resolved t

/-- C6: `synchronize` is idempotent, both as the pure event handler on a
target and as the document-level effect on a slider instance. -/
theorem claim_C6 (t : Target) (s : SliderElem) :
    onSliderInput (onSliderInput t) = onSliderInput t ∧
    syncSlider (syncSlider s) = syncSlider s :=
  ⟨onSliderInput_idem t, syncSlider_idem s⟩

/-- C7: `synchronize` never throws for any target state (the checked
embedding, which raises `TypeError` on any property access on a missing
element, always returns `ok`), and on an instance with no enclosing
container and no associated marker list the call completes with no side
effects at all. -/
theorem claim_C7 (t : Target) :
    onSliderInputChecked t = Except.ok (onSliderInput t) ∧
    (t.container = none → t.list = none → onSliderInput t = t) := by
  refine ⟨checked_eq_ok t, ?_⟩
  intro hc hl
  obtain ⟨v, m, M, l, c⟩ := t
  obtain rfl : c = none := hc
  obtain rfl : l = none := hl
  rfl

/-- C7 witness: a detached input with `value=5, max=3`, no container and
no list: the checked call returns `ok` and nothing changes. -/
theorem claim_C7_witness :
    onSliderInputChecked ⟨some 5, none, some 3, none, none⟩ =
      Except.ok (onSliderInput ⟨some 5, none, some 3, none, none⟩) ∧
    onSliderInput ⟨some 5, none, some 3, none, none⟩ =
      ⟨some 5, none, some 3, none, none⟩ := by
  obtain ⟨h1, h2⟩ := claim_C7 ⟨some 5, none, some 3, none, none⟩
  exact ⟨h1, h2 rfl rfl⟩

/-- C4 counterexample: with `min=10, max=20` (so `max > min`) and
`current=0` — e.g. a non-numeric `value` attribute, which the handler
coerces to 0 — the code writes `"-100%"` to the progress sink: the
written percentage is negative and outside `[0%, 100%]`, refuting the
claim that it is clamped to `[0%, 100%]` for every `current` when
`max > min`. -/
theorem claim_C4_counterexample :
    jsOrZero (some 20) > jsOrZero (some 10) ∧
    ratioVal (jsOrZero (some 0)) (jsOrZero (some 10)) (jsOrZero (some 20)) = -100 ∧
    (onSliderInput ⟨some 0, some 10, some 20, none, some ⟨[], [], none⟩⟩).container =
      some ⟨[], [], some "-100%"⟩ := by
  have h0 : jsOrZero (some (0 : ℚ)) = 0 := by norm_num [jsOrZero]
  have h10 : jsOrZero (some (10 : ℚ)) = 10 := by norm_num [jsOrZero]
  have h20 : jsOrZero (some (20 : ℚ)) = 20 := by norm_num [jsOrZero]
  have hr : ratioVal 0 10 20 = -100 := by norm_num [ratioVal]
  refine ⟨by rw [h10, h20]; norm_num, by rw [h0, h10, h20, hr], ?_⟩
  have hs : ratioStr (jsOrZero (some 0)) (jsOrZero (some 10)) (jsOrZero (some 20)) =
      "-100%" := by
    rw [h0, h10, h20, ratioStr, hr]
    rfl
  simp [onSliderInput, hs]

/-- C4 amended: the value written to the sink is always the defined
percentage string of `ratioVal current min max`; when `max > min` that
value is exactly `(current - min) / (max - min) * 100`, which lies
within `[0, 100]` whenever `min ≤ current ≤ max` (the code does not
clamp, so a `current` outside `[min, max]` produces a percentage outside
that interval); when `max ≤ min` the value is 0. -/
theorem claim_C4_amended (t : Target) (b : SContainer) (v m M : ℚ) :
    (t.container = some b → ∃ b', (onSliderInput t).container = some b' ∧
      b'.progress = some (toString
        (ratioVal (jsOrZero t.value) (jsOrZero t.min) (jsOrZero t.max)) ++ "%")) ∧
    (M > m → ratioVal v m M = (v - m) / (M - m) * 100) ∧
    (M > m → m ≤ v → v ≤ M → 0 ≤ ratioVal v m M ∧ ratioVal v m M ≤ 100) ∧
    (M ≤ m → ratioVal v m M = 0) := by
  refine ⟨?_, ?_, ?_, ?_⟩
  · intro h
    obtain ⟨b', hb', hp⟩ := onSliderInput_progress t b h
    exact ⟨b', hb', by rw [hp, ratioStr]⟩
  · intro h
    rw [ratioVal, if_pos h]
  · intro hMm hmv hvM
    have hpos : (0 : ℚ) < M - m := by linarith
    rw [ratioVal, if_pos hMm]
    constructor
    · have h1 : (0 : ℚ) ≤ (v - m) / (M - m) := div_nonneg (by linarith) (le_of_lt hpos)
      nlinarith
    · have h1 : (v - m) / (M - m) ≤ 1 := (div_le_one hpos).mpr (by linarith)
      nlinarith
  · intro h
    rw [ratioVal, if_neg (not_lt.mpr h)]

/-- C4 amended witness: at `current=25, min=0, max=100` the sink receives
the percentage string, the ratio lies in `[0, 100]`, and the degenerate
range `min=max=100` yields ratio 0. -/
theorem claim_C4_amended_witness :
    (∃ b', (onSliderInput ⟨some 25, some 0, some 100, none,
        some ⟨[], [], none⟩⟩).container = some b' ∧
      b'.progress = some (toString (ratioVal (jsOrZero (some 25)) (jsOrZero (some 0))
        (jsOrZero (some 100))) ++ "%")) ∧
    (0 ≤ ratioVal 25 0 100 ∧ ratioVal 25 0 100 ≤ 100) ∧
    ratioVal 100 100 100 = 0 := by
  obtain ⟨h1, h2, h3, h4⟩ := claim_C4_amended
    ⟨some 25, some 0, some 100, none, some ⟨[], [], none⟩⟩ ⟨[], [], none⟩ 25 0 100
  obtain ⟨g1, g2, g3, g4⟩ := claim_C4_amended
    ⟨some 25, some 0, some 100, none, some ⟨[], [], none⟩⟩ ⟨[], [], none⟩ 100 100 100
  exact ⟨h1 rfl, h3 (by norm_num) (by norm_num) (by norm_num), g4 (by norm_num)⟩

/-- C5 counterexample: a document with one slider instance containing no
embedded numeric control: `slider.getElementsByTagName('input')[0]` is
`undefined`, the subsequent `input.addEventListener` access throws a
`TypeError`, and `bodyOnLoad` does not complete — refuting the claim
that `initializeAll` completes without throwing in that situation. -/
theorem claim_C5_counterexample :
    bodyOnLoad [⟨none, [], [], none, 0⟩] = Except.error "TypeError" := rfl

/-- C5 amended: `synchronize` itself never throws on any target state,
and `initializeAll` completes without throwing on every document in
which each slider instance contains an embedded numeric control; a
slider instance without one makes `bodyOnLoad` throw a `TypeError`. -/
theorem claim_C5_amended (t : Target) (doc : List SliderElem) :
    (onSliderInputChecked t).isOk = true ∧
    ((∀ s ∈ doc, s.input.isSome) → bodyOnLoad doc = Except.ok (doc.map sliderLoadOk)) := by
  constructor
  · rw [checked_eq_ok]
    rfl
  · exact bodyOnLoad_ok doc

/-- C5 amended witness: the checked handler returns `ok` on a bare
target, and `bodyOnLoad` succeeds on a document whose single slider has
an input. -/
theorem claim_C5_amended_witness :
    (onSliderInputChecked ⟨none, none, none, none, none⟩).isOk = true ∧
    bodyOnLoad [exSliderA] = Except.ok ([exSliderA].map sliderLoadOk) := by
  obtain ⟨h1, h2⟩ := claim_C5_amended ⟨none, none, none, none, none⟩ [exSliderA]
  refine ⟨h1, h2 ?_⟩
  intro s hs
  simp only [List.mem_singleton] at hs
  subst hs
  rfl

/-- C8: when the control has no associated marker list (`list = null`)
and its container has no native `<datalist>` but does contain a custom
`.datalist` collection, dispatching the handler for that slider updates
exactly that collection's flags, and the sliders at every other document
position — in particular other slider instances and their marker
collections — are left untouched. -/
theorem claim_C8 (doc : List SliderElem) (k : Nat) (s : SliderElem) (i : InputElem)
    (cl : CustomList) (rest : List CustomList)
    (hk : doc.get? k = some s) (hi : s.input = some i) (hl : i.list = none)
    (hd : s.datalists = []) (hc : s.customLists = cl :: rest) :
    (syncSlider s).customLists = updateCustomList (jsOrZero i.value) cl :: rest ∧
    dispatchInput doc k = doc.set k (syncSlider s) ∧
    ∀ j, j ≠ k → ∀ (hj : j < (dispatchInput doc k).length) (hj' : j < doc.length),
      (dispatchInput doc k)[j] = doc[j] := by
  have hb := branch_container_custom (mkTarget s i) ⟨s.datalists, s.customLists, s.progress⟩
    cl rest hl rfl hd hc
  have hk' : doc[k]? = some s := by simpa using hk
  refine ⟨?_, ?_, ?_⟩
  · simp only [mkTarget] at hb
    simp [syncSlider, hi, writeBack, mkTarget, hb]
  · simp [dispatchInput, hk']
  · intro j hjk hj hj'
    simp only [dispatchInput, hk]
    rw [List.getElem_set_ne (Ne.symm hjk)]

/-- C8 witness: a two-slider document; dispatching on the first slider
(custom-collection fallback, marker at 3 < current 5) updates only the
first slider, with the second instance's collection untouched. -/
theorem claim_C8_witness :
    (syncSlider exSliderA).customLists = [updateCustomList (jsOrZero (some 5)) exCustomA] ∧
    dispatchInput [exSliderA, exSliderB] 0 = [syncSlider exSliderA, exSliderB] := by
  obtain ⟨h1, h2, h3⟩ := claim_C8 [exSliderA, exSliderB] 0 exSliderA exInputA exCustomA []
    rfl rfl rfl rfl rfl
  exact ⟨h1, h2⟩

/-- C9: `initializeAll` (`bodyOnLoad`) walks every slider instance of the
document in document order; on a document in which every instance has an
embedded numeric control, it returns normally, each resulting instance
has one more `input` listener registered, and each instance is already
synchronized: a further `synchronize` call changes nothing, i.e. its
progress sink and marker flags already match its control. -/
theorem claim_C9 (doc : List SliderElem) (h : ∀ s ∈ doc, s.input.isSome) :
    bodyOnLoad doc = Except.ok (doc.map sliderLoadOk) ∧
    (doc.map sliderLoadOk).length = doc.length ∧
    ∀ j (hj : j < (doc.map sliderLoadOk).length) (hj' : j < doc.length),
      (doc.map sliderLoadOk)[j] = sliderLoadOk doc[j] ∧
      ((doc.map sliderLoadOk)[j]).listeners = doc[j].listeners + 1 ∧
      syncSlider ((doc.map sliderLoadOk)[j]) = (doc.map sliderLoadOk)[j] := by
  refine ⟨bodyOnLoad_ok doc h, by simp, ?_⟩
  intro j hj hj'
  have hm : (doc.map sliderLoadOk)[j] = sliderLoadOk doc[j] := by simp
  refine ⟨hm, ?_, ?_⟩
  · rw [hm]
    rfl
  · rw [hm]
    exact syncSlider_fix _

/-- C9 witness: the two-slider document; `bodyOnLoad` succeeds, the
first instance's listener count goes from 1 to 2 and it is already
synchronized. -/
theorem claim_C9_witness :
    bodyOnLoad [exSliderA, exSliderB] =
      Except.ok [sliderLoadOk exSliderA, sliderLoadOk exSliderB] ∧
    (sliderLoadOk exSliderA).listeners = 2 ∧
    syncSlider (sliderLoadOk exSliderA) = sliderLoadOk exSliderA := by
  obtain ⟨h1, h2, h3⟩ := claim_C9 [exSliderA, exSliderB] (by
    intro s hs
    simp only [List.mem_cons, List.mem_singleton] at hs
    rcases hs with rfl | rfl | hs
    · rfl
    · rfl
    · cases hs)
  obtain ⟨g1, g2, g3⟩ := h3 0 (by simp) (by simp)
  exact ⟨h1, g2, g3⟩

/-- C10: after any `synchronize` call that resolves a marker collection,
every marker of that collection whose position does not parse to a
number (`NaN`) ends up unflagged — its `lower` mark is cleared — for
every current value, since the comparison `NaN < current` is false. -/
theorem claim_C10 (t : Target) (n : Nat) :
    (∀ dl, t.list = some dl → ∀ (hn : n < dl.options.length),
      dl.options[n].value = none →
      ∃ dl', (onSliderInput t).list = some dl' ∧
        ∃ hn' : n < dl'.options.length, dl'.options[n].lower = false) ∧
    (∀ b dl rest, t.list = none → t.container = some b → b.datalists = dl :: rest →
      ∀ (hn : n < dl.options.length), dl.options[n].value = none →
      ∃ b' dl', (onSliderInput t).container = some b' ∧ b'.datalists = dl' :: rest ∧
        ∃ hn' : n < dl'.options.length, dl'.options[n].lower = false) ∧
    (∀ b cl rest, t.list = none → t.container = some b → b.datalists = [] →
        b.customLists = cl :: rest →
      ∀ (hn : n < cl.options.length), cl.options[n].value = none →
      ∃ b' cl', (onSliderInput t).container = some b' ∧ b'.customLists = cl' :: rest ∧
        ∃ hn' : n < cl'.options.length, cl'.options[n].lower = false) := by
  refine ⟨?_, ?_, ?_⟩
  · intro dl hdl hn hval
    refine ⟨updateNativeList (jsOrZero t.value) dl, branch_native_target t dl hdl, ?_, ?_⟩
    · simpa [updateNativeList] using hn
    · simp [updateNativeList, updateMarkerOption, hval, jsLt]
  · intro b dl rest hl hc hd hn hval
    refine ⟨_, updateNativeList (jsOrZero t.value) dl,
      branch_container_native t b dl rest hl hc hd, rfl, ?_, ?_⟩
    · simpa [updateNativeList] using hn
    · simp [updateNativeList, updateMarkerOption, hval, jsLt]
  · intro b cl rest hl hc hd hcl hn hval
    refine ⟨_, updateCustomList (jsOrZero t.value) cl,
      branch_container_custom t b cl rest hl hc hd hcl, rfl, ?_, ?_⟩
    · simpa [updateCustomList] using hn
    · simp [updateCustomList, updateMarkerOption, hval, jsLt]

/-- C10 witness: a marker whose value attribute parses to `NaN`, stale
`lower` flag set, ends up unflagged after the call. -/
theorem claim_C10_witness :
    ∃ dl', (onSliderInput ⟨some 25, some 0, some 100,
        some ⟨[⟨none, true⟩]⟩, none⟩).list = some dl' ∧
      ∃ hn' : 0 < dl'.options.length, dl'.options[0].lower = false := by
  obtain ⟨h1, h2, h3⟩ := claim_C10 ⟨some 25, some 0, some 100, some ⟨[⟨none, true⟩]⟩, none⟩ 0
  exact h1 ⟨[⟨none, true⟩]⟩ rfl (by norm_num) rfl
